import Mathlib

/-!
Verification of the container lifecycle engine of the `dock` tool
(`src/container.rs`, `src/cli.rs`).

The `ContainerManager` operations are embedded as pure state transformers
over an explicit `World` holding the persisted config records, the
per-container root directories and log files, the host filesystem (script
paths) and the OS process table.  External effects that can fail at the OS
boundary (creating the log file, spawning the sandbox tool, spawning
`pkill`) are modelled by Boolean outcome parameters, so each theorem
quantifies over every possible outcome of the environment.

The repository's `storage.rs` and `python.rs` are not part of the sources;
their contracts (Config Store §4.1, Filesystem Root Manager §4.2,
runtime-version detector §6) are modelled from the spec where noted.
-/

namespace Dock

/-- The persisted per-container record, mirroring `ContainerConfig` in
`storage.rs` as used by `container.rs` (fields `id`, `name`, `script`,
`python_version`, `status`, `port_mapping`). -/
structure ContainerConfig where
  id : String
  name : String
  script : String
  python_version : String
  status : String
  port_mapping : Option String
deriving DecidableEq, Repr

/-- The distinct failure conditions of the engine (spec §7); in the Rust
source each is an `anyhow` error with a distinct message. -/
inductive DockError where
  | NotFound
  | AlreadyExists
  | AlreadyRunning
  | AlreadyStopped
  | ScriptNotFound
  | DetectionError
  | LaunchError
  | CannotRemoveRunning
  | IOError
deriving DecidableEq, Repr

/-- The observable state an operation reads and writes: the config store,
the per-container root directories (keyed by container name), the host
filesystem paths that exist (scripts), the per-container log files with
their contents (keyed by container name), and the OS process table, each
process represented by its process-table line (command line plus the
environment tags set at spawn, which is what the tag-based lookup of
spec §4.4 scans). -/
structure World where
  configs : List ContainerConfig
  rootDirs : List String
  files : List String
  logFiles : List (String × String)
  procs : List String
deriving DecidableEq, Repr

/-- Modelled from the spec: Config Store `exists(name)` (§4.1), a pure
existence check on the records (`storage.rs` is not in the sources). -/
def containerExists (w : World) (name : String) : Bool :=
  w.configs.any (fun c => c.name == name)

/-- Modelled from the spec: Config Store `save(config)` (§4.1), which
creates or overwrites the record keyed by `config.name`. -/
def saveConfig (w : World) (c : ContainerConfig) : World :=
  { w with configs := c :: w.configs.filter (fun c0 => !(c0.name == c.name)) }

/-- Modelled from the spec: Config Store `load(name)` (§4.1); `none` is the
`NotFound` failure. -/
def loadConfig (w : World) (name : String) : Option ContainerConfig :=
  w.configs.find? (fun c => c.name == name)

/-- Modelled from the spec: Config Store `delete(name)` together with the
root-tree and log deletion performed by `remove` (§4.2 `destroyRoot`,
§4.5 remove row: delete root tree and log, delete config). -/
def deleteContainer (w : World) (name : String) : World :=
  { w with
    configs := w.configs.filter (fun c => !(c.name == name)),
    rootDirs := w.rootDirs.filter (fun n => !(n == name)),
    logFiles := w.logFiles.filter (fun e => !(e.1 == name)) }

/-- Whether a host filesystem path exists (`std::path::Path::exists`). -/
def fileExists (w : World) (path : String) : Bool :=
  w.files.contains path

/-- Whether the per-container root directory exists. -/
def rootExists (w : World) (name : String) : Bool :=
  w.rootDirs.contains name

/-- Contents of the per-container log file, `none` when the file is absent
(`logs_path(name)` is a pure function of the name, spec §4.2). -/
def logContents (w : World) (name : String) : Option String :=
  (w.logFiles.find? (fun e => e.1 == name)).map (fun e => e.2)

/-- Runtime executable selection in `start` (`container.rs` lines 70-74):
a `match` on the stored `python_version` string with a catch-all arm. -/
def pythonCmd (pv : String) : String :=
  if pv = "Python2" then "python2"
  else if pv = "Python3" then "python3"
  else "python"

/-- The process-table line of a spawned sandboxed workload:
`proot -r <root> <pythonCmd> <script>` plus the `DOCK_CONTAINER=<name>`
environment tag, the sole durable means of finding the process later. -/
def spawnedProc (name script pv : String) : String :=
  "proot -r " ++ name ++ " " ++ pythonCmd pv ++ " " ++ script ++
    " DOCK_CONTAINER=" ++ name

/-- Does the character list `s` start with the character list `pat`? -/
def leadsWith : List Char → List Char → Bool
  | [], _ => true
  | _ :: _, [] => false
  | a :: as, b :: bs => (a == b) && leadsWith as bs

/-- Does the character list `s` contain `pat` as a contiguous run? -/
def hasSub (pat : List Char) : List Char → Bool
  | [] => leadsWith pat []
  | b :: bs => leadsWith pat (b :: bs) || hasSub pat bs

/-- Substring test on strings: does `s` contain `pat`?  This is the
matching discipline of `pkill -f <pat>` over process-table lines. -/
def strHasSub (s pat : String) : Bool :=
  hasSub pat.data s.data

/-- The pattern `stop` hands to `pkill -f` (`container.rs` line 113). -/
def killPattern (name : String) : String :=
  "DOCK_CONTAINER=" ++ name

/-- `ContainerManager::create` (`container.rs` lines 18-49).  `detect` is
the runtime-version detector (modelled from the spec, §6: `python.rs` is
not in the sources; `none` is its `DetectionError`); `newId` the freshly
drawn UUID. -/
def create (w : World) (detect : String → Option String) (newId : String)
    (name script : String) : Except DockError Unit × World :=
  if containerExists w name then
    (Except.error DockError.AlreadyExists, w)
  else if fileExists w script = false then
    (Except.error DockError.ScriptNotFound, w)
  else
    match detect script with
    | none => (Except.error DockError.DetectionError, w)
    | some tag =>
      let config : ContainerConfig :=
        { id := newId, name := name, script := script,
          python_version := tag, status := "stopped", port_mapping := none }
      let w1 := saveConfig w config
      (Except.ok (), { w1 with rootDirs := name :: w1.rootDirs })

/-- `ContainerManager::start` (`container.rs` lines 51-99).  `logOk` is the
outcome of `fs::File::create` on the log path, `spawnOk` the outcome of
spawning the sandbox tool (`LaunchError` when it fails). -/
def start (w : World) (name : String) (port : Option String)
    (logOk spawnOk : Bool) : Except DockError Unit × World :=
  match loadConfig w name with
  | none => (Except.error DockError.NotFound, w)
  | some config =>
    if config.status = "running" then
      (Except.error DockError.AlreadyRunning, w)
    else if fileExists w config.script = false then
      (Except.error DockError.ScriptNotFound, w)
    else
      let config1 := { config with status := "running", port_mapping := port }
      let w1 := saveConfig w config1
      if logOk = false then
        (Except.error DockError.IOError, w1)
      else
        let w2 := { w1 with
          logFiles := (name, "") :: w1.logFiles.filter (fun e => !(e.1 == name)) }
        if spawnOk = false then
          (Except.error DockError.LaunchError, w2)
        else
          (Except.ok (),
           { w2 with
             procs := spawnedProc name config.script config.python_version
               :: w2.procs })

/-- `ContainerManager::stop` (`container.rs` lines 101-118).  `pkillOk` is
the outcome of spawning `pkill` itself; its exit status (zero processes
matched) is ignored by the source, which only propagates a spawn failure. -/
def stop (w : World) (name : String) (pkillOk : Bool) :
    Except DockError Unit × World :=
  match loadConfig w name with
  | none => (Except.error DockError.NotFound, w)
  | some config =>
    if config.status = "stopped" then
      (Except.error DockError.AlreadyStopped, w)
    else
      let w1 := saveConfig w { config with status := "stopped" }
      if pkillOk = false then
        (Except.error DockError.IOError, w1)
      else
        (Except.ok (),
         { w1 with
           procs := w1.procs.filter (fun p => !(strHasSub p (killPattern name))) })

/-- `ContainerManager::logs` (`container.rs` lines 169-180): a missing
log file is the explicit "No logs available" outcome (`none` in the
result), not an error; when the file is present, `fs::read_to_string`
(line 177) may still fail — an I/O failure, or log contents that are not
valid UTF-8 — which the `readOk` outcome parameter models. -/
def logs (w : World) (name : String) (readOk : Bool) :
    Except DockError (Option String) × World :=
  match logContents w name with
  | none => (Except.ok none, w)
  | some content =>
    if readOk = false then (Except.error DockError.IOError, w)
    else (Except.ok (some content), w)

/-- `ContainerManager::remove` (`container.rs` lines 182-195). -/
def remove (w : World) (name : String) : Except DockError Unit × World :=
  match loadConfig w name with
  | none => (Except.error DockError.NotFound, w)
  | some config =>
    if config.status = "running" then
      (Except.error DockError.CannotRemoveRunning, w)
    else
      (Except.ok (), deleteContainer w name)

/-- Every status persisted in the config store is in the two-element
domain `{stopped, running}` (spec §3). -/
abbrev statusInv (w : World) : Prop :=
  ∀ c ∈ w.configs, c.status = "stopped" ∨ c.status = "running"

/-! ## Helper lemmas about the config store -/

/-- A record returned by `load(name)` carries that name as its key. -/
theorem name_of_loadConfig {w : World} {name : String} {c : ContainerConfig}
    (h : loadConfig w name = some c) : c.name = name := by
  unfold loadConfig at h
  simpa using List.find?_some h

/-- Loading right after saving yields the saved record. -/
theorem loadConfig_saveConfig_self (w : World) (c : ContainerConfig) :
    loadConfig (saveConfig w c) c.name = some c := by
  unfold loadConfig saveConfig
  exact List.find?_cons_of_pos _ (by simp)

/-- Shape of a successful `stop`: the record is saved with status
`stopped` (all other fields untouched) and the tag-matching processes are
filtered out of the process table. -/
theorem stop_spec (w : World) (name : String) (c : ContainerConfig)
    (hload : loadConfig w name = some c) (hns : ¬ c.status = "stopped") :
    stop w name true =
      (Except.ok (),
       { saveConfig w { c with status := "stopped" } with
         procs := w.procs.filter (fun p => !(strHasSub p (killPattern name))) }) := by
  unfold stop
  rw [hload]
  simp [hns, saveConfig]

/-- Shape of a `stop` whose `pkill` spawn fails: the status flip is
already persisted. -/
theorem stop_pkill_fail_spec (w : World) (name : String) (c : ContainerConfig)
    (hload : loadConfig w name = some c) (hns : ¬ c.status = "stopped") :
    stop w name false =
      (Except.error DockError.IOError, saveConfig w { c with status := "stopped" }) := by
  unfold stop
  rw [hload]
  simp [hns]

/-- Shape of a fully successful `start`. -/
theorem start_ok_spec (w : World) (name : String) (port : Option String)
    (c : ContainerConfig) (hload : loadConfig w name = some c)
    (hnr : ¬ c.status = "running") (hex : fileExists w c.script = true) :
    start w name port true true =
      (Except.ok (),
       { saveConfig w { c with status := "running", port_mapping := port } with
         logFiles := (name, "") :: w.logFiles.filter (fun e => !(e.1 == name)),
         procs := spawnedProc name c.script c.python_version :: w.procs }) := by
  unfold start
  rw [hload]
  simp [hnr, hex, saveConfig]

/-- Shape of a `start` whose sandbox spawn fails: the status flip and the
new port mapping are already persisted, and the log file already created. -/
theorem start_spawn_fail_spec (w : World) (name : String) (port : Option String)
    (c : ContainerConfig) (hload : loadConfig w name = some c)
    (hnr : ¬ c.status = "running") (hex : fileExists w c.script = true) :
    start w name port true false =
      (Except.error DockError.LaunchError,
       { saveConfig w { c with status := "running", port_mapping := port } with
         logFiles := (name, "") :: w.logFiles.filter (fun e => !(e.1 == name)) }) := by
  unfold start
  rw [hload]
  simp [hnr, hex, saveConfig]

/-- Whatever the outcome of the `pkill` spawn, a `stop` that passes its
guards persists the record with status `stopped` and no other change. -/
theorem loadConfig_after_stop (w : World) (name : String) (c : ContainerConfig)
    (hload : loadConfig w name = some c) (hns : ¬ c.status = "stopped") (pk : Bool) :
    loadConfig (stop w name pk).2 name = some { c with status := "stopped" } := by
  have hname := name_of_loadConfig hload
  cases pk
  · rw [stop_pkill_fail_spec w name c hload hns]
    simp [loadConfig, saveConfig, hname]
  · rw [stop_spec w name c hload hns]
    simp [loadConfig, saveConfig, hname]

/-- No record keyed by `name` survives `deleteContainer`. -/
theorem containerExists_deleteContainer (w : World) (name : String) :
    containerExists (deleteContainer w name) name = false := by
  simp [containerExists, deleteContainer, List.any_eq_true, List.mem_filter]

/-! ## Concrete worlds used by the witnesses -/

/-- A detector that classifies every script as Python 3. -/
def detectPy3 : String → Option String := fun _ => some "Python3"

/-- A created-but-stopped container named `web`. -/
def cfgW : ContainerConfig :=
  { id := "id-web", name := "web", script := "app.py",
    python_version := "Python3", status := "stopped", port_mapping := none }

/-- World holding the stopped `web` container; its script exists. -/
def wStopped : World :=
  { configs := [cfgW], rootDirs := ["web"], files := ["app.py"],
    logFiles := [], procs := [] }

/-- The `web` container after a successful `start` with a port mapping. -/
def cfgR : ContainerConfig :=
  { cfgW with status := "running", port_mapping := some "8080:80" }

/-- World holding the running `web` container with its tagged process. -/
def wRunning : World :=
  { configs := [cfgR], rootDirs := ["web"], files := ["app.py"],
    logFiles := [("web", "hello")], procs := [spawnedProc "web" "app.py" "Python3"] }

/-- Same persisted state but zero live processes carry the tag (e.g. the
workload already exited). -/
def wRunningIdle : World :=
  { wRunning with procs := [] }

/-- The stopped `web` container with a stale port mapping left by an
earlier start/stop cycle. -/
def cfgP : ContainerConfig :=
  { cfgW with port_mapping := some "8080:80" }

/-- World holding the stopped `web` container with the stale mapping. -/
def wStoppedPort : World :=
  { wStopped with configs := [cfgP] }

/-! ## Claims -/

/-- C2: for every container whose persisted status is `running`, `start`
fails with `AlreadyRunning`, launches no process, and leaves the world
(in particular the persisted config) unchanged, whatever the port
argument and the environment outcomes. -/
theorem start_on_running_fails (w : World) (name : String) (port : Option String)
    (logOk spawnOk : Bool) (c : ContainerConfig)
    (hload : loadConfig w name = some c) (hrun : c.status = "running") :
    start w name port logOk spawnOk = (Except.error DockError.AlreadyRunning, w) := by
  unfold start
  rw [hload]
  simp [hrun]

/-- Witness for C2 at the concrete running world. -/
theorem start_on_running_fails_witness :
    start wRunning "web" (some "9090:90") true true
      = (Except.error DockError.AlreadyRunning, wRunning) :=
  start_on_running_fails wRunning "web" (some "9090:90") true true cfgR
    (by decide) (by decide)

/-- C4: runtime executable selection is a total function of the stored
tag: `Python2` maps to `python2`, `Python3` to `python3`, and every other
tag falls back to the generic `python` rather than failing. -/
theorem pythonCmd_total :
    pythonCmd "Python2" = "python2" ∧ pythonCmd "Python3" = "python3" ∧
      ∀ tag : String, ¬ tag = "Python2" → ¬ tag = "Python3" →
        pythonCmd tag = "python" := by
  refine ⟨by decide, by decide, ?_⟩
  intro tag h2 h3
  simp [pythonCmd, h2, h3]

/-- Witness for C4 at an unsupported tag. -/
theorem pythonCmd_total_witness : pythonCmd "Ruby" = "python" :=
  pythonCmd_total.2.2 "Ruby" (by decide) (by decide)

/-- C5: a successful `stop` of a running container rewrites only the
`status` field of its persisted config: `port_mapping` is left stale and
`id`, `name`, `script` and `python_version` are untouched. -/
theorem stop_changes_only_status (w : World) (name : String) (c : ContainerConfig)
    (hload : loadConfig w name = some c) (hrun : c.status = "running") :
    (stop w name true).1 = Except.ok () ∧
    loadConfig (stop w name true).2 name = some { c with status := "stopped" } := by
  have hname := name_of_loadConfig hload
  have hns : ¬ c.status = "stopped" := by rw [hrun]; decide
  rw [stop_spec w name c hload hns]
  refine ⟨rfl, ?_⟩
  simp [loadConfig, saveConfig, hname]

/-- Witness for C5: stopping the running world keeps the stale port
mapping and every identity field. -/
theorem stop_changes_only_status_witness :
    (stop wRunning "web" true).1 = Except.ok () ∧
    loadConfig (stop wRunning "web" true).2 "web"
      = some { cfgR with status := "stopped" } :=
  stop_changes_only_status wRunning "web" cfgR (by decide) (by decide)

/-- C1: in both `start` and `stop` the status flip is persisted before the
process action is attempted: when the sandbox spawn fails, `start` returns
`LaunchError` yet the durable config already says `running` with the new
port mapping and is not rolled back; and whatever the outcome of the
`pkill` spawn, `stop` has already persisted `stopped`. -/
theorem status_flip_persisted_before_action
    (w : World) (name : String) (port : Option String) (c : ContainerConfig)
    (pk : Bool) (hload : loadConfig w name = some c) :
    (¬ c.status = "running" → fileExists w c.script = true →
      (start w name port true false).1 = Except.error DockError.LaunchError ∧
      loadConfig (start w name port true false).2 name
        = some { c with status := "running", port_mapping := port }) ∧
    (¬ c.status = "stopped" →
      loadConfig (stop w name pk).2 name = some { c with status := "stopped" }) := by
  have hname := name_of_loadConfig hload
  constructor
  · intro hnr hex
    rw [start_spawn_fail_spec w name port c hload hnr hex]
    exact ⟨rfl, by simp [loadConfig, saveConfig, hname]⟩
  · intro hns
    exact loadConfig_after_stop w name c hload hns pk

/-- Witness for C1: a failed launch from the stopped world leaves
`running` persisted; a failed `pkill` spawn from the running world leaves
`stopped` persisted. -/
theorem status_flip_persisted_before_action_witness :
    ((start wStopped "web" (some "8080:80") true false).1
        = Except.error DockError.LaunchError ∧
      loadConfig (start wStopped "web" (some "8080:80") true false).2 "web"
        = some { cfgW with status := "running", port_mapping := some "8080:80" }) ∧
    loadConfig (stop wRunning "web" false).2 "web"
      = some { cfgR with status := "stopped" } :=
  ⟨(status_flip_persisted_before_action wStopped "web" (some "8080:80") cfgW false
      (by decide)).1 (by decide) (by decide),
   (status_flip_persisted_before_action wRunning "web" none cfgR false
      (by decide)).2 (by decide)⟩

/-- C10: `start` assigns its port argument to the persisted
`port_mapping` unconditionally, so a successful re-start without a port
overwrites a stale mapping to absent. -/
theorem start_overwrites_port_mapping
    (w : World) (name : String) (c : ContainerConfig) (stale : String)
    (hload : loadConfig w name = some c)
    (_hport : c.port_mapping = some stale)
    (hnr : ¬ c.status = "running")
    (hex : fileExists w c.script = true) :
    ∀ port : Option String,
      (start w name port true true).1 = Except.ok () ∧
      loadConfig (start w name port true true).2 name
        = some { c with status := "running", port_mapping := port } := by
  intro port
  have hname := name_of_loadConfig hload
  rw [start_ok_spec w name port c hload hnr hex]
  exact ⟨rfl, by simp [loadConfig, saveConfig, hname]⟩

/-- Witness for C10: starting the stale-mapping world without a port
clears the persisted mapping. -/
theorem start_overwrites_port_mapping_witness :
    (start wStoppedPort "web" none true true).1 = Except.ok () ∧
    loadConfig (start wStoppedPort "web" none true true).2 "web"
      = some { cfgP with status := "running", port_mapping := none } :=
  start_overwrites_port_mapping wStoppedPort "web" cfgP "8080:80"
    (by decide) (by decide) (by decide) (by decide) none

/-- C7: the terminate step of `stop` removes exactly the process-table
entries containing `DOCK_CONTAINER=<name>` as a substring, and `stop`
succeeds regardless of how many entries matched (in particular zero). -/
theorem stop_kills_by_substring_tag (w : World) (name : String)
    (c : ContainerConfig)
    (hload : loadConfig w name = some c) (hrun : c.status = "running") :
    killPattern name = "DOCK_CONTAINER=" ++ name ∧
    (stop w name true).1 = Except.ok () ∧
    (stop w name true).2.procs
      = w.procs.filter (fun p => !(strHasSub p (killPattern name))) := by
  have hns : ¬ c.status = "stopped" := by rw [hrun]; decide
  rw [stop_spec w name c hload hns]
  exact ⟨rfl, rfl, by simp [saveConfig]⟩

/-- Witness for C7 at a running world with zero tagged processes: the
stop still succeeds. -/
theorem stop_kills_by_substring_tag_witness :
    killPattern "web" = "DOCK_CONTAINER=" ++ "web" ∧
    (stop wRunningIdle "web" true).1 = Except.ok () ∧
    (stop wRunningIdle "web" true).2.procs
      = wRunningIdle.procs.filter (fun p => !(strHasSub p (killPattern "web"))) :=
  stop_kills_by_substring_tag wRunningIdle "web" cfgR (by decide) (by decide)

/-- C6: `remove` on a running container fails with `CannotRemoveRunning`
and deletes nothing; after a `stop`, `remove` succeeds and the container
no longer exists. -/
theorem remove_running_guard (w : World) (name : String) (c : ContainerConfig)
    (hload : loadConfig w name = some c) (hrun : c.status = "running") :
    remove w name = (Except.error DockError.CannotRemoveRunning, w) ∧
    (remove (stop w name true).2 name).1 = Except.ok () ∧
    containerExists (remove (stop w name true).2 name).2 name = false := by
  have hns : ¬ c.status = "stopped" := by rw [hrun]; decide
  have hload2 := loadConfig_after_stop w name c hload hns true
  refine ⟨?_, ?_, ?_⟩
  · unfold remove
    rw [hload]
    simp [hrun]
  · unfold remove
    rw [hload2]
    simp
  · unfold remove
    rw [hload2]
    simp [containerExists_deleteContainer]

/-- Witness for C6 at the concrete running world. -/
theorem remove_running_guard_witness :
    remove wRunning "web" = (Except.error DockError.CannotRemoveRunning, wRunning) ∧
    (remove (stop wRunning "web" true).2 "web").1 = Except.ok () ∧
    containerExists (remove (stop wRunning "web" true).2 "web").2 "web" = false :=
  remove_running_guard wRunning "web" cfgR (by decide) (by decide)

/-- C3 is refuted as frozen: when the name is already taken, `create`
checks existence first, so even with an absent script it fails with
`AlreadyExists`, not `ScriptNotFound` (`container.rs` lines 19-25). -/
theorem create_scriptnotfound_counterexample :
    fileExists wStopped "ghost.py" = false ∧
    (create wStopped detectPy3 "id-2" "web" "ghost.py").1
      = Except.error DockError.AlreadyExists ∧
    ¬ (create wStopped detectPy3 "id-2" "web" "ghost.py").1
      = Except.error DockError.ScriptNotFound := by
  refine ⟨rfl, rfl, ?_⟩
  intro h
  exact absurd (Except.error.inj h) (by decide)

/-- C3 amended: for every name not already taken, `create` with an absent
script fails with `ScriptNotFound` and leaves the world (config store and
root directories) untouched; for every taken name `create` fails with
`AlreadyExists` (the existence check runs first), whatever the script;
and in every run in which the script-existence check has not succeeded —
the name taken or the script absent — `create` persists nothing. -/
theorem create_script_check_before_persist
    (w : World) (detect : String → Option String) (newId name script : String) :
    (containerExists w name = false → fileExists w script = false →
      create w detect newId name script
        = (Except.error DockError.ScriptNotFound, w)) ∧
    (containerExists w name = true →
      create w detect newId name script
        = (Except.error DockError.AlreadyExists, w)) ∧
    (containerExists w name = true ∨ fileExists w script = false →
      (create w detect newId name script).2 = w) := by
  refine ⟨?_, ?_, ?_⟩
  · intro hcx hfe
    unfold create
    simp [hcx, hfe]
  · intro hcx
    unfold create
    simp [hcx]
  · rintro (hcx | hfe)
    · unfold create
      simp [hcx]
    · unfold create
      cases hcx : containerExists w name <;> simp [hfe]

/-- Witness for the amended C3: a fresh name with a missing script fails
with `ScriptNotFound`; the taken name fails with `AlreadyExists` and
persists nothing even though its script exists. -/
theorem create_script_check_before_persist_witness :
    create wStopped detectPy3 "id-2" "api" "ghost.py"
      = (Except.error DockError.ScriptNotFound, wStopped) ∧
    create wStopped detectPy3 "id-2" "web" "app.py"
      = (Except.error DockError.AlreadyExists, wStopped) ∧
    (create wStopped detectPy3 "id-2" "web" "app.py").2 = wStopped :=
  ⟨(create_script_check_before_persist wStopped detectPy3 "id-2" "api" "ghost.py").1
      (by decide) (by decide),
   (create_script_check_before_persist wStopped detectPy3 "id-2" "web" "app.py").2.1
      (by decide),
   (create_script_check_before_persist wStopped detectPy3 "id-2" "web" "app.py").2.2
      (Or.inl (by decide))⟩

/-- C8 is refuted as frozen: with the `web` log file present but its read
failing (an I/O error, or contents that are not valid UTF-8, propagated
by the `?` at `container.rs` line 177), `logs` returns an error, so it is
not failure-free. -/
theorem logs_read_failure_counterexample :
    (logContents wRunning "web").isSome = true ∧
    (logs wRunning "web" false).1 = Except.error DockError.IOError :=
  ⟨rfl, rfl⟩

/-- C8 amended: `logs` needs no existence precondition and never changes
the world; a missing log file is the explicit no-logs result (`none`),
never an error; a successful read returns the full contents; and the one
failure `logs` has is a log file that is present but cannot be read. -/
theorem logs_spec (w : World) (name : String) (readOk : Bool) :
    (logs w name readOk).2 = w ∧
    (logContents w name = none → logs w name readOk = (Except.ok none, w)) ∧
    (∀ content, logContents w name = some content → readOk = true →
      logs w name readOk = (Except.ok (some content), w)) ∧
    ((logs w name readOk).1 = Except.error DockError.IOError ↔
      (logContents w name).isSome = true ∧ readOk = false) := by
  unfold logs
  cases h : logContents w name
  · cases readOk <;> simp
  · cases readOk <;> simp

/-- Witness for the amended C8: no log file yields the explicit no-logs
result; a readable log file yields its contents. -/
theorem logs_spec_witness :
    logs wStopped "web" false = (Except.ok none, wStopped) ∧
    logs wRunning "web" true = (Except.ok (some "hello"), wRunning) :=
  ⟨(logs_spec wStopped "web" false).2.1 (by decide),
   (logs_spec wRunning "web" true).2.2.1 "hello" (by decide) rfl⟩

/-! ## Status-domain helpers (C9) -/

/-- Saving a record whose status is in the domain preserves the
invariant. -/
theorem statusInv_saveConfig {w : World} {c : ContainerConfig} (hw : statusInv w)
    (hc : c.status = "stopped" ∨ c.status = "running") :
    statusInv (saveConfig w c) := by
  intro c0 hc0
  simp only [saveConfig] at hc0
  rcases List.mem_cons.mp hc0 with h | h
  · subst h; exact hc
  · exact hw c0 (List.mem_of_mem_filter h)

/-- `create` preserves the status-domain invariant (it only ever writes
the literal `stopped`). -/
theorem statusInv_create (w : World) (detect : String → Option String)
    (newId name script : String) (hw : statusInv w) :
    statusInv (create w detect newId name script).2 := by
  unfold create
  cases hcx : containerExists w name
  · cases hfe : fileExists w script
    · simp [hcx, hfe]; exact hw
    · cases hdt : detect script
      · simp [hcx, hfe, hdt]; exact hw
      · simp only [hcx, hfe, hdt]
        simp only [Bool.false_eq_true, if_false, if_true]
        exact fun c0 hc0 => statusInv_saveConfig hw (Or.inl rfl) c0 hc0
  · simp [hcx]; exact hw

/-- `start` preserves the status-domain invariant (it only ever writes
the literal `running`). -/
theorem statusInv_start (w : World) (name : String) (port : Option String)
    (logOk spawnOk : Bool) (hw : statusInv w) :
    statusInv (start w name port logOk spawnOk).2 := by
  unfold start
  cases hl : loadConfig w name with
  | none => exact hw
  | some c =>
    by_cases hr : c.status = "running"
    · simp [hr]; exact hw
    · cases hfe : fileExists w c.script
      · simp [hr, hfe]; exact hw
      · cases logOk
        · simp [hr, hfe]
          exact fun c0 hc0 => statusInv_saveConfig hw (Or.inr rfl) c0 hc0
        · cases spawnOk <;>
          · simp [hr, hfe]
            exact fun c0 hc0 => statusInv_saveConfig hw (Or.inr rfl) c0 hc0

/-- `stop` preserves the status-domain invariant (it only ever writes
the literal `stopped`). -/
theorem statusInv_stop (w : World) (name : String) (pk : Bool)
    (hw : statusInv w) : statusInv (stop w name pk).2 := by
  unfold stop
  cases hl : loadConfig w name with
  | none => exact hw
  | some c =>
    by_cases hs : c.status = "stopped"
    · simp [hs]; exact hw
    · cases pk <;>
      · simp [hs]
        exact fun c0 hc0 => statusInv_saveConfig hw (Or.inl rfl) c0 hc0

/-- `remove` preserves the status-domain invariant (it only deletes). -/
theorem statusInv_remove (w : World) (name : String) (hw : statusInv w) :
    statusInv (remove w name).2 := by
  unfold remove
  cases hl : loadConfig w name with
  | none => exact hw
  | some c =>
    by_cases hr : c.status = "running"
    · simp [hr]; exact hw
    · simp only [hr, if_false]
      exact fun c0 hc0 => hw c0 (List.mem_of_mem_filter hc0)

/-- A successful `create` leaves the new record persisted with status
`stopped`. -/
theorem create_ok_status (w : World) (detect : String → Option String)
    (newId name script : String) :
    (create w detect newId name script).1 = Except.ok () →
    (loadConfig (create w detect newId name script).2 name).map
      ContainerConfig.status = some "stopped" := by
  unfold create
  cases hcx : containerExists w name
  · cases hfe : fileExists w script
    · simp [hfe]
    · cases hdt : detect script
      · simp [hfe, hdt]
      · simp [hfe, hdt, loadConfig, saveConfig]
  · simp

/-- A successful `start` leaves the record persisted with status
`running`. -/
theorem start_ok_status (w : World) (name : String) (port : Option String)
    (logOk spawnOk : Bool) :
    (start w name port logOk spawnOk).1 = Except.ok () →
    (loadConfig (start w name port logOk spawnOk).2 name).map
      ContainerConfig.status = some "running" := by
  unfold start
  cases hl : loadConfig w name with
  | none => simp
  | some c =>
    have hname := name_of_loadConfig hl
    by_cases hr : c.status = "running"
    · simp [hr]
    · cases hfe : fileExists w c.script
      · simp [hr, hfe]
      · cases logOk
        · simp [hr, hfe]
        · cases spawnOk
          · simp [hr, hfe]
          · simp [hr, hfe, loadConfig, saveConfig, hname]

/-- A successful `stop` leaves the record persisted with status
`stopped`. -/
theorem stop_ok_status (w : World) (name : String) (pk : Bool) :
    (stop w name pk).1 = Except.ok () →
    (loadConfig (stop w name pk).2 name).map
      ContainerConfig.status = some "stopped" := by
  unfold stop
  cases hl : loadConfig w name with
  | none => simp
  | some c =>
    have hname := name_of_loadConfig hl
    by_cases hs : c.status = "stopped"
    · simp [hs]
    · cases pk
      · simp [hs]
      · simp [hs, loadConfig, saveConfig, hname]

/-- C9: the status domain `{stopped, running}` is an invariant of every
operation: `create` writes `stopped`, `start` writes `running`, `stop`
writes `stopped`, and no operation ever persists any other status
value. -/
theorem status_domain_invariant
    (w : World) (detect : String → Option String) (newId name script : String)
    (port : Option String) (logOk spawnOk pk : Bool) (hw : statusInv w) :
    statusInv (create w detect newId name script).2 ∧
    statusInv (start w name port logOk spawnOk).2 ∧
    statusInv (stop w name pk).2 ∧
    statusInv (remove w name).2 ∧
    ((create w detect newId name script).1 = Except.ok () →
      (loadConfig (create w detect newId name script).2 name).map
        ContainerConfig.status = some "stopped") ∧
    ((start w name port logOk spawnOk).1 = Except.ok () →
      (loadConfig (start w name port logOk spawnOk).2 name).map
        ContainerConfig.status = some "running") ∧
    ((stop w name pk).1 = Except.ok () →
      (loadConfig (stop w name pk).2 name).map
        ContainerConfig.status = some "stopped") :=
  ⟨statusInv_create w detect newId name script hw,
   statusInv_start w name port logOk spawnOk hw,
   statusInv_stop w name pk hw,
   statusInv_remove w name hw,
   create_ok_status w detect newId name script,
   start_ok_status w name port logOk spawnOk,
   stop_ok_status w name pk⟩

/-- Witness for C9 at the stopped world with every environment outcome
favourable. -/
theorem status_domain_invariant_witness :
    statusInv (create wStopped detectPy3 "id-2" "web" "app.py").2 ∧
    statusInv (start wStopped "web" (some "8080:80") true true).2 ∧
    statusInv (stop wStopped "web" true).2 ∧
    statusInv (remove wStopped "web").2 ∧
    ((create wStopped detectPy3 "id-2" "web" "app.py").1 = Except.ok () →
      (loadConfig (create wStopped detectPy3 "id-2" "web" "app.py").2 "web").map
        ContainerConfig.status = some "stopped") ∧
    ((start wStopped "web" (some "8080:80") true true).1 = Except.ok () →
      (loadConfig (start wStopped "web" (some "8080:80") true true).2 "web").map
        ContainerConfig.status = some "running") ∧
    ((stop wStopped "web" true).1 = Except.ok () →
      (loadConfig (stop wStopped "web" true).2 "web").map
        ContainerConfig.status = some "stopped") :=
  status_domain_invariant wStopped detectPy3 "id-2" "web" "app.py"
    (some "8080:80") true true true (by decide)

end Dock
